import Mathlib

set_option autoImplicit false

/-
Shallow embedding of src/textql_mcp/core/feature_flags.py: the FeatureFlag
enumeration, the FeatureFlagManager state and its operations, and the
feature_flag_required wrapping mechanism. Line numbers in the doc comments
refer to that file.
-/

/-- FeatureFlag models the Python enum FeatureFlag (lines 17 to 34): the
closed set of eight string-valued flags. -/
inductive FeatureFlag where
  | ENABLE_QUERY_GRAPH
  | ENABLE_SCHEMA_FETCH
  | ENABLE_NATURAL_LANGUAGE
  | ENABLE_ADMIN_ENDPOINTS
  | ENABLE_FLAG_RUNTIME_UPDATES
  | ENABLE_AUTH_CHECKS
  | ENABLE_RATE_LIMITING
  | ENABLE_EXPERIMENTAL_FEATURES
  deriving DecidableEq

/-- String carried by each enum member, exactly the Python value strings. -/
def FeatureFlag.value : FeatureFlag → String
  | .ENABLE_QUERY_GRAPH => "enable_query_graph"
  | .ENABLE_SCHEMA_FETCH => "enable_schema_fetch"
  | .ENABLE_NATURAL_LANGUAGE => "enable_natural_language"
  | .ENABLE_ADMIN_ENDPOINTS => "enable_admin_endpoints"
  | .ENABLE_FLAG_RUNTIME_UPDATES => "enable_flag_runtime_updates"
  | .ENABLE_AUTH_CHECKS => "enable_auth_checks"
  | .ENABLE_RATE_LIMITING => "enable_rate_limiting"
  | .ENABLE_EXPERIMENTAL_FEATURES => "enable_experimental_features"

/-- Iteration order of the Python loop over FeatureFlag: definition order. -/
def FeatureFlag.all : List FeatureFlag :=
  [.ENABLE_QUERY_GRAPH, .ENABLE_SCHEMA_FETCH, .ENABLE_NATURAL_LANGUAGE,
   .ENABLE_ADMIN_ENDPOINTS, .ENABLE_FLAG_RUNTIME_UPDATES, .ENABLE_AUTH_CHECKS,
   .ENABLE_RATE_LIMITING, .ENABLE_EXPERIMENTAL_FEATURES]

/-- FlagDict models the Python dict self.flags: an insertion-ordered list of
key-value bindings in which each key occurs at most once. -/
abbrev FlagDict := List (String × Bool)

/-- Env models the process environment as a key-value list; a key occurs at
most once, and lookup returns the first binding. -/
abbrev Env := List (String × String)

/-- Lookup of a key in a key-value list, as Python dict membership plus
indexing (d.get, d[k], k in d). -/
def lookupKV {β : Type} (k : String) : List (String × β) → Option β
  | [] => none
  | p :: t => if p.1 = k then some p.2 else lookupKV k t

/-- Python dict assignment d[k] = v: replaces the value at an existing key in
place, keeping its position, otherwise appends the new binding at the end. -/
def dictSet (k : String) (v : Bool) : FlagDict → FlagDict
  | [] => [(k, v)]
  | p :: t => if p.1 = k then (k, v) :: t else p :: dictSet k v t

/-- Config models the configuration dictionary passed to
FeatureFlagManager.__init__, reduced to the feature_flags sub-mapping the
code reads (line 85); the values are the booleans that bool(value) yields. -/
structure Config where
  feature_flags : List (String × Bool)
  deriving DecidableEq

/-- Defaults installed by FeatureFlagManager._load_defaults (lines 65 to 77). -/
def load_defaults : FlagDict :=
  [(FeatureFlag.ENABLE_QUERY_GRAPH.value, true),
   (FeatureFlag.ENABLE_SCHEMA_FETCH.value, true),
   (FeatureFlag.ENABLE_NATURAL_LANGUAGE.value, false),
   (FeatureFlag.ENABLE_ADMIN_ENDPOINTS.value, false),
   (FeatureFlag.ENABLE_FLAG_RUNTIME_UPDATES.value, false),
   (FeatureFlag.ENABLE_AUTH_CHECKS.value, false),
   (FeatureFlag.ENABLE_RATE_LIMITING.value, false),
   (FeatureFlag.ENABLE_EXPERIMENTAL_FEATURES.value, false)]

/-- Names recognized by the code through the comprehension over FeatureFlag
(lines 87 and 147). -/
def allFlagNames : List String := FeatureFlag.all.map FeatureFlag.value

/-- One step of FeatureFlagManager._load_from_config (lines 85 to 91): a
recognized key overwrites the entry, an unrecognized key is skipped; the
warning the code logs for the latter is a side effect outside the state. -/
def config_step (d : FlagDict) (p : String × Bool) : FlagDict :=
  if p.1 ∈ allFlagNames then dictSet p.1 p.2 d else d

/-- FeatureFlagManager._load_from_config, iterating the feature_flags
sub-mapping in order. -/
def load_from_config (d : FlagDict) (ff : List (String × Bool)) : FlagDict :=
  ff.foldl config_step d

/-- ASCII lowering of one character; agrees with the Python str.lower on the
ASCII strings this module handles. -/
def asciiLowerChar (c : Char) : Char :=
  if 65 ≤ c.toNat ∧ c.toNat ≤ 90 then Char.ofNat (c.toNat + 32) else c

/-- ASCII raising of one character; agrees with the Python str.upper on the
ASCII flag names of this module. -/
def asciiUpperChar (c : Char) : Char :=
  if 97 ≤ c.toNat ∧ c.toNat ≤ 122 then Char.ofNat (c.toNat - 32) else c

/-- Model of the Python str.lower used at line 104. -/
def strLower (s : String) : String := String.mk (s.data.map asciiLowerChar)

/-- Model of the Python str.upper used at line 102. -/
def strUpper (s : String) : String := String.mk (s.data.map asciiUpperChar)

/-- Name of the environment variable consulted for a flag (line 102): the
fixed prefix TEXTQL_FF_ followed by the uppercased flag value. -/
def envVarName (f : FeatureFlag) : String :=
  "TEXTQL_FF_" ++ strUpper f.value

/-- Boolean parse of line 104: the lowercased string is compared against the
token tuple; anything else yields false. -/
def parse_env_value (s : String) : Bool :=
  ["true", "1", "yes", "on"].contains (strLower s)

/-- One step of FeatureFlagManager._load_from_env (lines 101 to 106) for one
flag: when the variable is present its parsed value overwrites the entry. -/
def env_step (env : Env) (d : FlagDict) (f : FeatureFlag) : FlagDict :=
  match lookupKV (envVarName f) env with
  | some s => dictSet f.value (parse_env_value s) d
  | none => d

/-- FeatureFlagManager._load_from_env, iterating all flags in order. -/
def load_from_env (d : FlagDict) (env : Env) : FlagDict :=
  FeatureFlag.all.foldl (env_step env) d

/-- FeatureFlagManager.__init__ (lines 50 to 63): defaults first, then the
config when one is supplied, then the environment; the closing logging call
does not change the state. -/
def FeatureFlagManager.init (config : Option Config) (env : Env) : FlagDict :=
  load_from_env
    (match config with
     | some c => load_from_config load_defaults c.feature_flags
     | none => load_defaults)
    env

/-- FeatureFlagManager.is_enabled (lines 115 to 128) applied to a raw string
name: self.flags.get(flag, False). -/
def is_enabled (d : FlagDict) (flag : String) : Bool :=
  (lookupKV flag d).getD false

/-- FeatureFlagManager.is_enabled applied to an enum member: the code first
unwraps flag.value (lines 125 to 126) and then performs the same lookup. -/
def is_enabled_flag (d : FlagDict) (f : FeatureFlag) : Bool :=
  is_enabled d f.value

/-- FeatureFlagManager.set_flag (lines 130 to 154) on a raw string name,
returning the boolean result together with the resulting state. A caller
passing an enum member reaches the same path through flag.value (lines 144
to 145). The code returns False without mutation when runtime updates are
disabled or when the name is unrecognized; otherwise it writes the entry and
returns True. -/
def set_flag (d : FlagDict) (flag : String) (enabled : Bool) : Bool × FlagDict :=
  if is_enabled_flag d .ENABLE_FLAG_RUNTIME_UPDATES then
    if flag ∈ allFlagNames then (true, dictSet flag enabled d)
    else (false, d)
  else (false, d)

/-- FeatureFlagManager.get_all_flags (lines 156 to 162): self.flags.copy();
the copy of a pure value is the value itself. -/
def get_all_flags (d : FlagDict) : FlagDict := d

/-- FeatureFlagManager.get_enabled_features (lines 164 to 170). -/
def get_enabled_features (d : FlagDict) : List String :=
  (d.filter (fun p => p.2)).map Prod.fst

/-- Fold of successive set_flag calls, used to quantify over every sequence
of runtime updates. -/
def applySets (d : FlagDict) (ops : List (String × Bool)) : FlagDict :=
  ops.foldl (fun s p => (set_flag s p.1 p.2).2) d

/-- Reachable flag states: those produced by __init__ followed by any
sequence of set_flag calls, the only mutation path the module offers. -/
inductive Reachable : FlagDict → Prop where
  | start (config : Option Config) (env : Env) :
      Reachable (FeatureFlagManager.init config env)
  | update (d : FlagDict) (flag : String) (enabled : Bool) :
      Reachable d → Reachable (set_flag d flag enabled).2

/-- GateResult distinguishes the two outcomes of a gated call: the structured
refusal dictionary, carrying exactly the three keys error, feature_required
and enabled (lines 204 to 208 and 226 to 230), or the value produced by
invoking the wrapped function. -/
inductive GateResult (α : Type) where
  | refused (error : String) (feature_required : String) (enabled : Bool)
  | invoked (result : α)
  deriving DecidableEq

/-- LifespanCtx models the object reached at ctx.lifespan_ctx; the field
feature_flags is getattr(ctx.lifespan_ctx, "feature_flags", None), so none
stands for an absent attribute or an attribute holding None. -/
structure LifespanCtx where
  feature_flags : Option FlagDict
  deriving DecidableEq

/-- PyObj models a candidate context object; lifespan_ctx = none stands for
an object without a lifespan_ctx attribute. Such objects are truthy in
Python, so truthiness needs no separate model. -/
structure PyObj where
  lifespan_ctx : Option LifespanCtx
  deriving DecidableEq

/-- Context discovery shared by the two wrappers (lines 195 to 198 and 218 to
220): the keyword argument ctx when present, otherwise the first positional
argument when that argument has a lifespan_ctx attribute. -/
def find_ctx (ctxKw : Option PyObj) (args : List PyObj) : Option PyObj :=
  match ctxKw with
  | some c => some c
  | none =>
    match args with
    | [] => none
    | a :: _ => if a.lifespan_ctx.isSome then some a else none

/-- Default refusal message built at lines 203 and 225. -/
def default_error_message (f : FeatureFlag) : String :=
  "Feature \x27" ++ f.value ++ "\x27 is not enabled"

/-- GateOutcome records, besides the result of the call, whether the wrapper
logged the could-not-access warning (line 210 or 232) and how many times the
wrapped function was invoked. -/
structure GateOutcome (α : Type) where
  warned : Bool
  calls : Nat
  result : GateResult α
  deriving DecidableEq

/-- Shared body of async_wrapper (lines 193 to 213) and sync_wrapper (lines
216 to 234) of feature_flag_required: the two wrappers run the identical
check and differ only in awaiting the wrapped function, which a pure model
does not distinguish. The wrapped function receives the original keyword
context and positional arguments. The warning is logged exactly when no
context is found or the found context lacks a lifespan_ctx attribute; a
present lifespan_ctx whose feature_flags is None falls through to the
invocation without any warning. -/
def gate_call {α : Type} (flag : FeatureFlag) (error_message : Option String)
    (ctxKw : Option PyObj) (args : List PyObj)
    (func : Option PyObj → List PyObj → α) : GateOutcome α :=
  match find_ctx ctxKw args with
  | some c =>
    match c.lifespan_ctx with
    | some l =>
      match l.feature_flags with
      | some ff =>
        if is_enabled_flag ff flag then
          ⟨false, 1, .invoked (func ctxKw args)⟩
        else
          ⟨false, 0,
           .refused (error_message.getD (default_error_message flag)) flag.value false⟩
      | none => ⟨false, 1, .invoked (func ctxKw args)⟩
    | none => ⟨true, 1, .invoked (func ctxKw args)⟩
  | none => ⟨true, 1, .invoked (func ctxKw args)⟩

/-
Lemmas about the dictionary operations and the loading folds.
-/

/-- Lookup after writing the same key yields the written value. -/
theorem lookupKV_dictSet_self (k : String) (v : Bool) (d : FlagDict) :
    lookupKV k (dictSet k v d) = some v := by
  induction d with
  | nil => simp [dictSet, lookupKV]
  | cons p t ih =>
    by_cases h : p.1 = k
    · simp [dictSet, h, lookupKV]
    · simp [dictSet, h, lookupKV, ih]

/-- Lookup at a different key is unaffected by a write. -/
theorem lookupKV_dictSet_ne (k q : String) (v : Bool) (d : FlagDict)
    (h : q ≠ k) : lookupKV q (dictSet k v d) = lookupKV q d := by
  induction d with
  | nil => simp [dictSet, lookupKV, Ne.symm h]
  | cons p t ih =>
    by_cases hp : p.1 = k
    · simp [dictSet, lookupKV, hp, Ne.symm h]
    · simp [dictSet, lookupKV, hp, ih]

/-- Writing the same key and value twice equals writing once. -/
theorem dictSet_dictSet_same (k : String) (v : Bool) (d : FlagDict) :
    dictSet k v (dictSet k v d) = dictSet k v d := by
  induction d with
  | nil => simp [dictSet]
  | cons p t ih =>
    by_cases h : p.1 = k
    · simp [dictSet, h]
    · simp [dictSet, h, ih]

/-- Writing a key that is already bound keeps the key list unchanged. -/
theorem keys_dictSet_of_isSome (k : String) (v : Bool) (d : FlagDict)
    (h : (lookupKV k d).isSome) :
    (dictSet k v d).map Prod.fst = d.map Prod.fst := by
  induction d with
  | nil => simp [lookupKV] at h
  | cons p t ih =>
    by_cases hp : p.1 = k
    · simp [dictSet, hp]
    · have h2 : (lookupKV k t).isSome := by simpa [lookupKV, hp] using h
      simp [dictSet, hp, ih h2]

/-- Lookup misses exactly the keys outside the key list. -/
theorem lookupKV_eq_none_of_not_mem {β : Type} (k : String)
    (d : List (String × β)) (h : k ∉ d.map Prod.fst) : lookupKV k d = none := by
  induction d with
  | nil => rfl
  | cons p t ih =>
    simp only [List.map_cons, List.mem_cons] at h
    push_neg at h
    simp [lookupKV, Ne.symm h.1, ih h.2]

/-- Lookup hits every key in the key list. -/
theorem lookupKV_isSome_of_mem {β : Type} (k : String)
    (d : List (String × β)) (h : k ∈ d.map Prod.fst) :
    (lookupKV k d).isSome := by
  induction d with
  | nil => simp at h
  | cons p t ih =>
    by_cases hp : p.1 = k
    · simp [lookupKV, hp]
    · simp only [List.map_cons, List.mem_cons] at h
      rcases h with h | h
      · exact absurd h.symm hp
      · simp [lookupKV, hp, ih h]

/-- Folding the environment loader over flags whose names differ from a key
leaves the lookup at that key unchanged. -/
theorem env_fold_lookup_not_written (env : Env) (fs : List FeatureFlag)
    (d : FlagDict) (k : String) (h : ∀ f ∈ fs, f.value ≠ k) :
    lookupKV k (fs.foldl (env_step env) d) = lookupKV k d := by
  induction fs generalizing d with
  | nil => rfl
  | cons g t ih =>
    have hg : g.value ≠ k := h g (List.mem_cons_self g t)
    have ht : ∀ f ∈ t, f.value ≠ k := fun f hf => h f (List.mem_cons_of_mem g hf)
    rw [List.foldl_cons, ih (env_step env d g) ht]
    unfold env_step
    cases henv : lookupKV (envVarName g) env with
    | none => rfl
    | some s => exact lookupKV_dictSet_ne g.value k (parse_env_value s) d (Ne.symm hg)

/-- Folding the environment loader over a duplicate-free flag list resolves a
flag whose variable is present to the parse of that variable. -/
theorem env_fold_lookup_written (env : Env) (fs : List FeatureFlag)
    (d : FlagDict) (f : FeatureFlag) (s : String)
    (hmem : f ∈ fs) (hnd : (fs.map FeatureFlag.value).Nodup)
    (he : lookupKV (envVarName f) env = some s) :
    lookupKV f.value (fs.foldl (env_step env) d) = some (parse_env_value s) := by
  induction fs generalizing d with
  | nil => cases hmem
  | cons g t ih =>
    rw [List.map_cons, List.nodup_cons] at hnd
    rcases List.mem_cons.mp hmem with rfl | hmem2
    · rw [List.foldl_cons]
      have hstep : env_step env d f = dictSet f.value (parse_env_value s) d := by
        unfold env_step; rw [he]
      rw [hstep]
      have ht : ∀ g2 ∈ t, g2.value ≠ f.value := by
        intro g2 hg2 heq
        exact hnd.1 (heq ▸ List.mem_map_of_mem FeatureFlag.value hg2)
      rw [env_fold_lookup_not_written env t _ f.value ht]
      exact lookupKV_dictSet_self f.value (parse_env_value s) d
    · rw [List.foldl_cons]
      exact ih (env_step env d g) hmem2 hnd.2

/-- Loading a config never changes the key list, provided every recognized
name is already a key. -/
theorem keys_config_fold (cfg : List (String × Bool)) (d : FlagDict)
    (h : ∀ n ∈ allFlagNames, n ∈ d.map Prod.fst) :
    (load_from_config d cfg).map Prod.fst = d.map Prod.fst := by
  induction cfg generalizing d with
  | nil => rfl
  | cons p t ih =>
    have hd : (config_step d p).map Prod.fst = d.map Prod.fst := by
      unfold config_step
      by_cases hp : p.1 ∈ allFlagNames
      · rw [if_pos hp]
        exact keys_dictSet_of_isSome p.1 p.2 d (lookupKV_isSome_of_mem p.1 d (h p.1 hp))
      · rw [if_neg hp]
    have h2 : ∀ n ∈ allFlagNames, n ∈ (config_step d p).map Prod.fst := by
      intro n hn
      rw [hd]
      exact h n hn
    have hstep : load_from_config d (p :: t) = load_from_config (config_step d p) t := rfl
    rw [hstep, ih (config_step d p) h2, hd]

/-- Loading the environment never changes the key list, provided every flag
name is already a key. -/
theorem keys_env_fold (env : Env) (fs : List FeatureFlag) (d : FlagDict)
    (h : ∀ f ∈ fs, f.value ∈ d.map Prod.fst) :
    (fs.foldl (env_step env) d).map Prod.fst = d.map Prod.fst := by
  induction fs generalizing d with
  | nil => rfl
  | cons g t ih =>
    have hd : (env_step env d g).map Prod.fst = d.map Prod.fst := by
      unfold env_step
      cases henv : lookupKV (envVarName g) env with
      | none => rfl
      | some s =>
        exact keys_dictSet_of_isSome g.value (parse_env_value s) d
          (lookupKV_isSome_of_mem g.value d (h g (List.mem_cons_self g t)))
    have h2 : ∀ f ∈ t, f.value ∈ (env_step env d g).map Prod.fst := by
      intro f hf
      rw [hd]
      exact h f (List.mem_cons_of_mem g hf)
    rw [List.foldl_cons, ih (env_step env d g) h2, hd]

/-- Key list of the default state, in definition order. -/
theorem keys_load_defaults : load_defaults.map Prod.fst = allFlagNames := by decide

/-- Every flag is an element of the iteration list. -/
theorem FeatureFlag.mem_all (f : FeatureFlag) : f ∈ FeatureFlag.all := by
  cases f <;> decide

/-- Every flag name is recognized. -/
theorem FeatureFlag.value_mem_allFlagNames (f : FeatureFlag) :
    f.value ∈ allFlagNames :=
  List.mem_map_of_mem FeatureFlag.value (FeatureFlag.mem_all f)

/-- Key list of any initialized state: exactly the eight flag names. -/
theorem keys_init (config : Option Config) (env : Env) :
    (FeatureFlagManager.init config env).map Prod.fst = allFlagNames := by
  cases config with
  | none =>
    show (load_from_env load_defaults env).map Prod.fst = allFlagNames
    rw [load_from_env, keys_env_fold env FeatureFlag.all load_defaults ?_, keys_load_defaults]
    intro f _
    rw [keys_load_defaults]
    exact FeatureFlag.value_mem_allFlagNames f
  | some c =>
    show (load_from_env (load_from_config load_defaults c.feature_flags) env).map Prod.fst = allFlagNames
    have hcfg : (load_from_config load_defaults c.feature_flags).map Prod.fst = allFlagNames := by
      rw [keys_config_fold c.feature_flags load_defaults ?_, keys_load_defaults]
      intro n hn
      rw [keys_load_defaults]
      exact hn
    rw [load_from_env, keys_env_fold env FeatureFlag.all _ ?_, hcfg]
    intro f _
    rw [hcfg]
    exact FeatureFlag.value_mem_allFlagNames f

/-- Key list preservation by one set_flag call. -/
theorem keys_set_flag (d : FlagDict) (flag : String) (v : Bool)
    (h : d.map Prod.fst = allFlagNames) :
    ((set_flag d flag v).2).map Prod.fst = allFlagNames := by
  unfold set_flag
  by_cases h1 : is_enabled_flag d .ENABLE_FLAG_RUNTIME_UPDATES = true
  · rw [if_pos h1]
    by_cases h2 : flag ∈ allFlagNames
    · rw [if_pos h2]
      show (dictSet flag v d).map Prod.fst = allFlagNames
      have hmem : flag ∈ d.map Prod.fst := by
        rw [h]
        exact h2
      rw [keys_dictSet_of_isSome flag v d (lookupKV_isSome_of_mem flag d hmem), h]
    · rw [if_neg h2]
      exact h
  · rw [if_neg h1]
    exact h

/-- Key list of every reachable state: exactly the eight flag names. -/
theorem reachable_keys (d : FlagDict) (h : Reachable d) :
    d.map Prod.fst = allFlagNames := by
  induction h with
  | start config env => exact keys_init config env
  | update d0 flag enabled _ ih => exact keys_set_flag d0 flag enabled ih

/-- Unfolding of set_flag when runtime updates are enabled and the name is a
recognized flag name. -/
theorem set_flag_when_enabled (d : FlagDict) (f : FeatureFlag) (v : Bool)
    (h : is_enabled_flag d .ENABLE_FLAG_RUNTIME_UPDATES = true) :
    set_flag d f.value v = (true, dictSet f.value v d) := by
  unfold set_flag
  rw [if_pos h, if_pos (FeatureFlag.value_mem_allFlagNames f)]

/-- Unfolding of set_flag when runtime updates are disabled. -/
theorem set_flag_when_disabled (d : FlagDict) (flag : String) (v : Bool)
    (h : is_enabled_flag d .ENABLE_FLAG_RUNTIME_UPDATES = false) :
    set_flag d flag v = (false, d) := by
  unfold set_flag
  rw [h]
  simp

/-- Any sequence of set_flag calls from a state with runtime updates disabled
returns to the same state. -/
theorem applySets_when_disabled (d : FlagDict)
    (h : is_enabled_flag d .ENABLE_FLAG_RUNTIME_UPDATES = false)
    (ops : List (String × Bool)) : applySets d ops = d := by
  induction ops with
  | nil => rfl
  | cons p t ih =>
    have hstep : (set_flag d p.1 p.2).2 = d := by
      rw [set_flag_when_disabled d p.1 p.2 h]
    calc applySets d (p :: t) = applySets (set_flag d p.1 p.2).2 t := rfl
    _ = applySets d t := by rw [hstep]
    _ = d := ih

/-- Key list preservation by any sequence of set_flag calls. -/
theorem keys_applySets (ops : List (String × Bool)) (d : FlagDict)
    (h : d.map Prod.fst = allFlagNames) :
    (applySets d ops).map Prod.fst = allFlagNames := by
  induction ops generalizing d with
  | nil => exact h
  | cons p t ih => exact ih (set_flag d p.1 p.2).2 (keys_set_flag d p.1 p.2 h)

/-- Distinct flags carry distinct name strings. -/
theorem FeatureFlag.value_injective (f g : FeatureFlag) (h : f.value = g.value) :
    f = g := by
  revert h
  cases f <;> cases g <;> decide

/-- Folding the environment loader over an environment that binds none of the
variables is the identity. -/
theorem env_fold_no_vars (env : Env) (fs : List FeatureFlag) (d : FlagDict)
    (h : ∀ f ∈ fs, lookupKV (envVarName f) env = none) :
    fs.foldl (env_step env) d = d := by
  induction fs generalizing d with
  | nil => rfl
  | cons g t ih =>
    have hstep : env_step env d g = d := by
      unfold env_step
      rw [h g (List.mem_cons_self g t)]
    rw [List.foldl_cons, hstep]
    exact ih d (fun f hf => h f (List.mem_cons_of_mem g hf))

/-
Claim theorems.
-/

/-- C1: Environment precedence. For every flag whose name is bound in the
feature_flags sub-mapping of the config and whose TEXTQL_FF_ environment
variable is also present, the state resolved by FeatureFlagManager.__init__
maps the flag to the value parsed from the environment variable, whatever
boolean the config supplied. -/
theorem env_precedence_over_config (cfg : List (String × Bool)) (env : Env)
    (f : FeatureFlag) (b : Bool) (s : String)
    (_hc : lookupKV f.value cfg = some b)
    (he : lookupKV (envVarName f) env = some s) :
    is_enabled (FeatureFlagManager.init (some ⟨cfg⟩) env) f.value
      = parse_env_value s := by
  unfold FeatureFlagManager.init is_enabled load_from_env
  rw [env_fold_lookup_written env FeatureFlag.all _ f s (FeatureFlag.mem_all f)
    (by decide) he]
  rfl

/-- Witness for C1 at the spec scenario: env TEXTQL_FF_ENABLE_QUERY_GRAPH set
to the string false against config enable_query_graph = true resolves to
false. -/
theorem env_precedence_over_config_witness :
    is_enabled (FeatureFlagManager.init (some ⟨[("enable_query_graph", true)]⟩)
        [("TEXTQL_FF_ENABLE_QUERY_GRAPH", "false")])
      FeatureFlag.ENABLE_QUERY_GRAPH.value = parse_env_value ("false")
    ∧ parse_env_value ("false") = false :=
  ⟨env_precedence_over_config [("enable_query_graph", true)]
      [("TEXTQL_FF_ENABLE_QUERY_GRAPH", "false")]
      .ENABLE_QUERY_GRAPH true ("false") (by decide) (by decide),
   by decide⟩

/-- C2: Gate refusal. Whenever the located execution context exposes a flag
state in which the guarded flag is disabled, the gated call returns the
structured refusal carrying the supplied or default message, the flag name
and enabled false, logs no warning, and never invokes the wrapped function
(zero calls, and the outcome does not depend on the function). -/
theorem gate_refusal_exact {α : Type} (flag : FeatureFlag) (msg : Option String)
    (ctxKw : Option PyObj) (args : List PyObj) (c : PyObj) (l : LifespanCtx)
    (ff : FlagDict) (func : Option PyObj → List PyObj → α)
    (hc : find_ctx ctxKw args = some c)
    (hl : c.lifespan_ctx = some l)
    (hf : l.feature_flags = some ff)
    (hd : is_enabled_flag ff flag = false) :
    gate_call flag msg ctxKw args func
      = ⟨false, 0, .refused (msg.getD (default_error_message flag)) flag.value false⟩ := by
  simp [gate_call, hc, hl, hf, hd]

/-- Witness for C2: a context exposing the default state refuses a call gated
on enable_admin_endpoints without invoking the wrapped function. -/
theorem gate_refusal_exact_witness :
    gate_call .ENABLE_ADMIN_ENDPOINTS none
        (some ⟨some ⟨some (FeatureFlagManager.init none [])⟩⟩) []
        (fun _ _ => (7 : Nat))
      = ⟨false, 0, .refused (default_error_message .ENABLE_ADMIN_ENDPOINTS)
          FeatureFlag.ENABLE_ADMIN_ENDPOINTS.value false⟩ := by
  exact gate_refusal_exact _ none _ [] _ _ _ _ rfl rfl rfl (by decide)

/-- C3: Gated mutation is atomic on refusal. In every state with
enable_flag_runtime_updates false, set_flag returns false for every name,
known or unknown, and every value, and get_all_flags is unchanged. -/
theorem set_flag_disabled_noop (d : FlagDict) (flag : String) (v : Bool)
    (h : is_enabled_flag d .ENABLE_FLAG_RUNTIME_UPDATES = false) :
    (set_flag d flag v).1 = false
    ∧ get_all_flags (set_flag d flag v).2 = get_all_flags d := by
  rw [set_flag_when_disabled d flag v h]
  exact ⟨rfl, rfl⟩

/-- Witness for C3 on the default state, where runtime updates are off. -/
theorem set_flag_disabled_noop_witness :
    (set_flag (FeatureFlagManager.init none []) ("enable_query_graph") true).1 = false
    ∧ get_all_flags (set_flag (FeatureFlagManager.init none []) ("enable_query_graph") true).2
      = get_all_flags (FeatureFlagManager.init none []) :=
  set_flag_disabled_noop (FeatureFlagManager.init none []) ("enable_query_graph") true
    (by decide)

/-- C4 counterexample: the environment string TRUE is none of the four tokens
true, 1, yes, on, yet the flag resolves to true, because line 104 lowercases
the value before the comparison; the claim as stated predicts false here. -/
theorem env_parse_case_counterexample :
    ¬ ("TRUE" = "true" ∨ "TRUE" = "1" ∨ "TRUE" = "yes" ∨ "TRUE" = "on")
    ∧ is_enabled (FeatureFlagManager.init none
        [("TEXTQL_FF_ENABLE_ADMIN_ENDPOINTS", "TRUE")]) ("enable_admin_endpoints") = true :=
  ⟨by decide, by decide⟩

/-- C4 amended: for every flag whose TEXTQL_FF_ variable is present,
__init__ resolves the flag to true exactly when the lowercased value is one
of the tokens true, 1, yes, on, and to false for every other string; the
parse is total and never raises. -/
theorem env_parse_amended (config : Option Config) (env : Env)
    (f : FeatureFlag) (s : String)
    (he : lookupKV (envVarName f) env = some s) :
    is_enabled (FeatureFlagManager.init config env) f.value
      = ["true", "1", "yes", "on"].contains (strLower s) := by
  unfold FeatureFlagManager.init is_enabled load_from_env
  rw [env_fold_lookup_written env FeatureFlag.all _ f s (FeatureFlag.mem_all f)
    (by decide) he]
  rfl

/-- Witness for the amended C4: a malformed value resolves to false and an
uppercase spelling of a token resolves to true. -/
theorem env_parse_amended_witness :
    (is_enabled (FeatureFlagManager.init none [("TEXTQL_FF_ENABLE_AUTH_CHECKS", "banana")])
        FeatureFlag.ENABLE_AUTH_CHECKS.value
      = ["true", "1", "yes", "on"].contains (strLower ("banana")))
    ∧ ["true", "1", "yes", "on"].contains (strLower ("banana")) = false :=
  ⟨env_parse_amended none [("TEXTQL_FF_ENABLE_AUTH_CHECKS", "banana")]
      .ENABLE_AUTH_CHECKS ("banana") (by decide),
   by decide⟩

/-- C5: Hardcoded defaults. With no config and an environment binding none of
the TEXTQL_FF_ variables, enable_query_graph and enable_schema_fetch resolve
to true and the six remaining flags resolve to false. -/
theorem defaults_resolved (env : Env)
    (h : ∀ f : FeatureFlag, lookupKV (envVarName f) env = none) :
    is_enabled (FeatureFlagManager.init none env) ("enable_query_graph") = true
    ∧ is_enabled (FeatureFlagManager.init none env) ("enable_schema_fetch") = true
    ∧ is_enabled (FeatureFlagManager.init none env) ("enable_natural_language") = false
    ∧ is_enabled (FeatureFlagManager.init none env) ("enable_admin_endpoints") = false
    ∧ is_enabled (FeatureFlagManager.init none env) ("enable_flag_runtime_updates") = false
    ∧ is_enabled (FeatureFlagManager.init none env) ("enable_auth_checks") = false
    ∧ is_enabled (FeatureFlagManager.init none env) ("enable_rate_limiting") = false
    ∧ is_enabled (FeatureFlagManager.init none env) ("enable_experimental_features") = false := by
  have hd : FeatureFlagManager.init none env = load_defaults :=
    env_fold_no_vars env FeatureFlag.all load_defaults (fun f _ => h f)
  rw [hd]
  decide

/-- Witness for C5 with the empty environment. -/
theorem defaults_resolved_witness :
    is_enabled (FeatureFlagManager.init none []) ("enable_admin_endpoints") = false
    ∧ is_enabled (FeatureFlagManager.init none []) ("enable_query_graph") = true :=
  ⟨(defaults_resolved [] (fun _ => rfl)).2.2.2.1,
   (defaults_resolved [] (fun _ => rfl)).1⟩

/-- C6 counterexample: a context whose lifespan_ctx is present but whose
feature_flags attribute is absent or None makes the gate invoke the wrapped
operation without logging any warning, while the claim as stated asserts a
warning is logged in this case. -/
theorem gate_fail_open_counterexample :
    (gate_call .ENABLE_QUERY_GRAPH none (some ⟨some ⟨none⟩⟩) []
        (fun _ _ => (7 : Nat))).warned = false
    ∧ (gate_call .ENABLE_QUERY_GRAPH none (some ⟨some ⟨none⟩⟩) []
        (fun _ _ => (7 : Nat))).result = .invoked 7 := by
  exact ⟨rfl, rfl⟩

/-- C6 amended: when no context is located, or the located context lacks a
lifespan_ctx attribute, the gate logs the warning and invokes the wrapped
operation with the original arguments, returning its result unchanged; when
lifespan_ctx is present but its feature_flags is absent or None the gate
still invokes the wrapped operation with the original arguments, but without
logging a warning. -/
theorem gate_fail_open_amended {α : Type} (flag : FeatureFlag)
    (msg : Option String) (ctxKw : Option PyObj) (args : List PyObj)
    (func : Option PyObj → List PyObj → α) :
    (find_ctx ctxKw args = none →
      gate_call flag msg ctxKw args func = ⟨true, 1, .invoked (func ctxKw args)⟩)
    ∧ (∀ c : PyObj, find_ctx ctxKw args = some c → c.lifespan_ctx = none →
      gate_call flag msg ctxKw args func = ⟨true, 1, .invoked (func ctxKw args)⟩)
    ∧ (∀ (c : PyObj) (l : LifespanCtx), find_ctx ctxKw args = some c →
      c.lifespan_ctx = some l → l.feature_flags = none →
      gate_call flag msg ctxKw args func = ⟨false, 1, .invoked (func ctxKw args)⟩) := by
  refine ⟨?_, ?_, ?_⟩
  · intro h
    simp [gate_call, h]
  · intro c hc hl
    simp [gate_call, hc, hl]
  · intro c l hc hl hf
    simp [gate_call, hc, hl, hf]

/-- Witness for the amended C6 in its three cases. -/
theorem gate_fail_open_amended_witness :
    gate_call .ENABLE_QUERY_GRAPH none none [] (fun _ _ => (3 : Nat))
      = ⟨true, 1, .invoked 3⟩
    ∧ gate_call .ENABLE_QUERY_GRAPH none (some ⟨none⟩) [] (fun _ _ => (4 : Nat))
      = ⟨true, 1, .invoked 4⟩
    ∧ gate_call .ENABLE_QUERY_GRAPH none (some ⟨some ⟨none⟩⟩) [] (fun _ _ => (5 : Nat))
      = ⟨false, 1, .invoked 5⟩ :=
  ⟨(gate_fail_open_amended _ none none [] _).1 rfl,
   (gate_fail_open_amended _ none _ [] _).2.1 _ rfl rfl,
   (gate_fail_open_amended _ none _ [] _).2.2 _ _ rfl rfl rfl⟩

/-- C7: set_flag frame condition. In every state with runtime updates
enabled, setting any flag of the closed set returns true, maps that flag to
the new value, leaves every other flag unchanged, and repeating the same call
with the same value leaves the state unchanged. -/
theorem set_flag_enabled_frame (d : FlagDict) (f : FeatureFlag) (v : Bool)
    (h : is_enabled_flag d .ENABLE_FLAG_RUNTIME_UPDATES = true) :
    (set_flag d f.value v).1 = true
    ∧ is_enabled (set_flag d f.value v).2 f.value = v
    ∧ (∀ g : FeatureFlag, g ≠ f →
        is_enabled (set_flag d f.value v).2 g.value = is_enabled d g.value)
    ∧ (set_flag (set_flag d f.value v).2 f.value v).2 = (set_flag d f.value v).2 := by
  have hset := set_flag_when_enabled d f v h
  refine ⟨by rw [hset], ?_, ?_, ?_⟩
  · rw [hset]
    show (lookupKV f.value (dictSet f.value v d)).getD false = v
    rw [lookupKV_dictSet_self]
    rfl
  · intro g hg
    rw [hset]
    show (lookupKV g.value (dictSet f.value v d)).getD false
      = (lookupKV g.value d).getD false
    rw [lookupKV_dictSet_ne f.value g.value v d
      (fun he => hg (FeatureFlag.value_injective g f he))]
  · rw [hset]
    by_cases h2 : is_enabled_flag (dictSet f.value v d) .ENABLE_FLAG_RUNTIME_UPDATES = true
    · rw [set_flag_when_enabled (dictSet f.value v d) f v h2]
      exact dictSet_dictSet_same f.value v d
    · rw [set_flag_when_disabled (dictSet f.value v d) f.value v
        (Bool.eq_false_iff.mpr h2)]

/-- Witness for C7: enabling runtime updates through the config, then setting
enable_admin_endpoints, succeeds, flips exactly that flag and leaves
enable_query_graph at its previous value. -/
theorem set_flag_enabled_frame_witness :
    (set_flag (FeatureFlagManager.init (some ⟨[("enable_flag_runtime_updates", true)]⟩) [])
        FeatureFlag.ENABLE_ADMIN_ENDPOINTS.value true).1 = true
    ∧ is_enabled (set_flag (FeatureFlagManager.init (some ⟨[("enable_flag_runtime_updates", true)]⟩) [])
        FeatureFlag.ENABLE_ADMIN_ENDPOINTS.value true).2
        FeatureFlag.ENABLE_ADMIN_ENDPOINTS.value = true
    ∧ is_enabled (set_flag (FeatureFlagManager.init (some ⟨[("enable_flag_runtime_updates", true)]⟩) [])
        FeatureFlag.ENABLE_ADMIN_ENDPOINTS.value true).2
        FeatureFlag.ENABLE_QUERY_GRAPH.value
      = is_enabled (FeatureFlagManager.init (some ⟨[("enable_flag_runtime_updates", true)]⟩) [])
        FeatureFlag.ENABLE_QUERY_GRAPH.value := by
  have h := set_flag_enabled_frame
    (FeatureFlagManager.init (some ⟨[("enable_flag_runtime_updates", true)]⟩) [])
    .ENABLE_ADMIN_ENDPOINTS true (by decide)
  exact ⟨h.1, h.2.1, h.2.2.1 .ENABLE_QUERY_GRAPH (by decide)⟩

/-- C8: Fail-closed lookup. In every reachable state, is_enabled returns
false for every string outside the closed name set, and calling it with an
enum member agrees with calling it with the raw name the member carries. -/
theorem is_enabled_fail_closed (d : FlagDict) (hr : Reachable d) :
    (∀ name : String, name ∉ allFlagNames → is_enabled d name = false)
    ∧ (∀ f : FeatureFlag, is_enabled_flag d f = is_enabled d f.value) := by
  refine ⟨?_, fun f => rfl⟩
  intro name hname
  have hnone : lookupKV name d = none :=
    lookupKV_eq_none_of_not_mem name d
      (by rw [reachable_keys d hr]; exact hname)
  show (lookupKV name d).getD false = false
  rw [hnone]
  rfl

/-- Witness for C8 at a name outside the closed set. -/
theorem is_enabled_fail_closed_witness :
    is_enabled (FeatureFlagManager.init none []) ("not_a_flag") = false :=
  (is_enabled_fail_closed (FeatureFlagManager.init none [])
    (Reachable.start none [])).1 ("not_a_flag") (by decide)

/-- C9: Totality and closedness. For every config, including one with
unrecognized feature_flags keys, and every environment, the initialized state
binds exactly the eight flag names, each to a defined boolean, and the
domain is preserved by every subsequent sequence of set_flag calls; in the
model __init__ is a total function, matching the absence of raising paths in
the code. -/
theorem init_domain_closed (config : Option Config) (env : Env) :
    ((FeatureFlagManager.init config env).map Prod.fst = allFlagNames)
    ∧ (∀ name, name ∈ allFlagNames →
        (lookupKV name (FeatureFlagManager.init config env)).isSome = true)
    ∧ (∀ ops : List (String × Bool),
        (applySets (FeatureFlagManager.init config env) ops).map Prod.fst
          = allFlagNames) := by
  refine ⟨keys_init config env, ?_, ?_⟩
  · intro name hn
    exact lookupKV_isSome_of_mem name (FeatureFlagManager.init config env)
      (by rw [keys_init config env]; exact hn)
  · intro ops
    exact keys_applySets ops (FeatureFlagManager.init config env)
      (keys_init config env)

/-- Witness for C9 with a config containing an unrecognized key. -/
theorem init_domain_closed_witness :
    ((FeatureFlagManager.init (some ⟨[("bogus_flag", true)]⟩) []).map Prod.fst
      = allFlagNames)
    ∧ (lookupKV ("enable_query_graph")
        (FeatureFlagManager.init (some ⟨[("bogus_flag", true)]⟩) [])).isSome = true
    ∧ (applySets (FeatureFlagManager.init (some ⟨[("bogus_flag", true)]⟩) [])
        [("enable_query_graph", false)]).map Prod.fst = allFlagNames :=
  ⟨(init_domain_closed (some ⟨[("bogus_flag", true)]⟩) []).1,
   (init_domain_closed (some ⟨[("bogus_flag", true)]⟩) []).2.1
     ("enable_query_graph") (by decide),
   (init_domain_closed (some ⟨[("bogus_flag", true)]⟩) []).2.2
     [("enable_query_graph", false)]⟩

/-- C10: Runtime-update lockout is permanent. Disabling
enable_flag_runtime_updates through set_flag succeeds while updates are
enabled and leaves it disabled; and from any state in which it is disabled,
every set_flag call returns false and every sequence of set_flag calls
leaves the state unchanged, so the lockout is irreversible through the
public mutation interface. -/
theorem runtime_updates_lockout (d : FlagDict) :
    (is_enabled_flag d .ENABLE_FLAG_RUNTIME_UPDATES = true →
      (set_flag d FeatureFlag.ENABLE_FLAG_RUNTIME_UPDATES.value false).1 = true
      ∧ is_enabled_flag
          (set_flag d FeatureFlag.ENABLE_FLAG_RUNTIME_UPDATES.value false).2
          .ENABLE_FLAG_RUNTIME_UPDATES = false)
    ∧ (is_enabled_flag d .ENABLE_FLAG_RUNTIME_UPDATES = false →
      (∀ (name : String) (v : Bool), (set_flag d name v).1 = false)
      ∧ (∀ ops : List (String × Bool), applySets d ops = d)) := by
  constructor
  · intro h
    have hset := set_flag_when_enabled d .ENABLE_FLAG_RUNTIME_UPDATES false h
    refine ⟨by rw [hset], ?_⟩
    rw [hset]
    show (lookupKV FeatureFlag.ENABLE_FLAG_RUNTIME_UPDATES.value
      (dictSet FeatureFlag.ENABLE_FLAG_RUNTIME_UPDATES.value false d)).getD false = false
    rw [lookupKV_dictSet_self]
    rfl
  · intro h
    refine ⟨fun name v => by rw [set_flag_when_disabled d name v h], ?_⟩
    exact applySets_when_disabled d h

/-- Witness for C10: the lockout succeeds from a state with updates enabled,
and from the default state, where updates are disabled, a sequence that even
tries to re-enable them leaves the state unchanged. -/
theorem runtime_updates_lockout_witness :
    (set_flag (FeatureFlagManager.init (some ⟨[("enable_flag_runtime_updates", true)]⟩) [])
        FeatureFlag.ENABLE_FLAG_RUNTIME_UPDATES.value false).1 = true
    ∧ applySets (FeatureFlagManager.init none [])
        [("enable_flag_runtime_updates", true), ("enable_query_graph", false)]
      = FeatureFlagManager.init none [] :=
  ⟨((runtime_updates_lockout
      (FeatureFlagManager.init (some ⟨[("enable_flag_runtime_updates", true)]⟩) [])).1
      (by decide)).1,
   ((runtime_updates_lockout (FeatureFlagManager.init none [])).2
      (by decide)).2
      [("enable_flag_runtime_updates", true), ("enable_query_graph", false)]⟩
